import Mathlib

set_option maxRecDepth 100000

/-!
Verification of the aurora inverter protocol codec.

Shallow embedding of the Go package `aurora` (files `aurora.go`, `types.go`
and the constant tables). Bytes are modelled as `Nat` values below 256;
16-bit and 32-bit machine arithmetic is made explicit with masks and `%`
where overflow matters. The blocking serial exchange of `Communicate` is
modelled by passing the received byte stream as an explicit argument and
returning both the transmitted bytes and the decoded result.
-/

/-- One bit step of the CRC accumulator, from `calculateCRC` in `aurora.go`:
if (crc bit0 XOR data bit0) is 1 the accumulator becomes
(crc >> 1) XOR 0x8408, otherwise crc >> 1. -/
def crcBitStep (crc data : Nat) : Nat :=
  if (crc &&& 1) ^^^ (data &&& 1) = 1 then (crc >>> 1) ^^^ 0x8408 else crc >>> 1

/-- The inner loop of `calculateCRC`: `i` countdown, shifting `data` right
one bit per step, exactly as the Go for-loop over the 8 bits of a byte. -/
def crcByteLoop : Nat → Nat → Nat → Nat
  | 0, crc, _ => crc
  | i + 1, crc, data => crcByteLoop i (crcBitStep crc data) (data >>> 1)

/-- `calculateCRC` from `aurora.go`: accumulator starts at 0xFFFF, each input
byte is processed bit by bit, and the result is the 16-bit complement of the
accumulator (bitwise NOT inside uint16, i.e. XOR with 0xFFFF). -/
def calculateCRC (input : List Nat) : Nat :=
  (input.foldl (fun crc chr => crcByteLoop 8 crc chr) 0xffff) ^^^ 0xffff

/-- One bit step as worded by the specification: if (accumulator bit 0 XOR
the current data bit) equals 1 then (accumulator >> 1) XOR 0x8408, else
accumulator >> 1. -/
def crcSpecBit (acc bit : Nat) : Nat :=
  if (acc &&& 1) ^^^ bit = 1 then (acc >>> 1) ^^^ 0x8408 else acc >>> 1

/-- The 8 bits of a byte, least significant bit first, as worded by the
specification. -/
def byteBitsLSBFirst (chr : Nat) : List Nat :=
  (List.range 8).map fun k => (chr >>> k) &&& 1

/-- The checksum algorithm exactly as worded by the specification:
initialize the accumulator to 0xFFFF, process each byte bit by bit least
significant bit first, and return the bitwise NOT of the accumulator. -/
def crc16Spec (input : List Nat) : Nat :=
  (input.foldl (fun acc chr => (byteBitsLSBFirst chr).foldl crcSpecBit acc) 0xffff) ^^^ 0xffff

/-- Command code `GetState`, value 50 from the iota block of the constant
table file. -/
def Command.GetState : Nat := 50

/-- Command code `GetPartNumber`, value 52. -/
def Command.GetPartNumber : Nat := 52

/-- Command code `GetVersion`, value 58. -/
def Command.GetVersion : Nat := 58

/-- Command code `GetSerialNumber`, value 63. -/
def Command.GetSerialNumber : Nat := 63

/-- Command code `GetTime`, value 70. -/
def Command.GetTime : Nat := 70

/-- Command code `GetCumulatedEnergy`, value 78. -/
def Command.GetCumulatedEnergy : Nat := 78

/-- Transmission state `TSOk`, explicitly 0 in the constant table. -/
def TSOk : Nat := 0

/-- Transmission state `TSCommandNotImplemented`. The Go block assigns
`51 + iota` where iota is already 1 on this line (the `TSOk` line holds
iota 0), so the value is 52. -/
def TSCommandNotImplemented : Nat := 52

/-- Transmission state `TSVariableDoesNotExist`, value 53. -/
def TSVariableDoesNotExist : Nat := 53

/-- Transmission state `TSValueOutOfRange`, value 54. -/
def TSValueOutOfRange : Nat := 54

/-- Transmission state `TSEEpromNotAccessible`, value 55. -/
def TSEEpromNotAccessible : Nat := 55

/-- Transmission state `TSMicroError`, value 56. -/
def TSMicroError : Nat := 56

/-- Transmission state `TSNotExecuted`, value 57. -/
def TSNotExecuted : Nat := 57

/-- Transmission state `TSVariableNotAvailable`, value 58. -/
def TSVariableNotAvailable : Nat := 58

/-- Modelled from the spec: the `transmissionStates` label map lives in a
source file (the string tables) that is not part of the provided sources;
only its lookup site `TransmissionState.String` and the numeric constants
are. Keys are the constant values above; the labels follow the failure
kinds listed by the specification in their order (command not implemented,
variable does not exist, value out of range, EEPROM inaccessible,
microcontroller error, not executed, variable not available). The labels
for 0 and for `TSEEpromNotAccessible` are pinned exactly by the repository
test file: "Ok" and "EEProm not accessible". -/
def transmissionStates (t : Nat) : Option String :=
  if t = 0 then some "Ok"
  else if t = 52 then some "Command is not implemented"
  else if t = 53 then some "Variable does not exist"
  else if t = 54 then some "Value out of range"
  else if t = 55 then some "EEProm not accessible"
  else if t = 56 then some "Micro error"
  else if t = 57 then some "Not executed"
  else if t = 58 then some "Variable not available"
  else none

/-- `TransmissionState.String` from `types.go`: look the code up in the
label map, and for an absent code render "Unknown TransmissionState(N)"
with N in decimal. -/
def TransmissionStateString (t : Nat) : String :=
  match transmissionStates t with
  | some str => str
  | none => "Unknown TransmissionState(" ++ toString t ++ ")"

/-- Little-endian encoding of a uint16 as two bytes, as done by
`binary.Write` with `binary.LittleEndian` on the CRC field. -/
def uint16LE (n : Nat) : List Nat :=
  [n % 256, n / 256 % 256]

/-- The argument-placing loop of `Communicate` (`aurora.go` lines 33 to 39):
walk the argument list with its index, stop as soon as the index exceeds 5,
write each argument byte at payload position index + 2, and remember the
last index written. Returns the updated payload and `lastIndex`. -/
def setArgs (payload : List Nat) (lastIndex index : Nat) : List Nat → List Nat × Nat
  | [] => (payload, lastIndex)
  | arg :: rest =>
    if index > 5 then (payload, lastIndex)
    else setArgs (payload.set (index + 2) arg) (index + 2) (index + 1) rest

/-- The outbound payload of `Communicate`: start from
[address, command, 32, 32, 32, 32, 32, 32] with `lastIndex = 1`, place the
arguments, then if `lastIndex < 7` force the byte after the last written
argument to 0 (the inverter expects 0 terminated instructions). -/
def buildPayload (address command : Nat) (args : List Nat) : List Nat :=
  let start := [address, command, 32, 32, 32, 32, 32, 32]
  let result := setArgs start 1 0 args
  if result.2 < 7 then result.1.set (result.2 + 1) 0 else result.1

/-- The errors `Communicate` can report at protocol level: the sentinel
`ErrCRCFailure`, or an error created from the transmission state label. -/
inductive CommError where
  | crcFailure : CommError
  | transmissionState : String → CommError
deriving DecidableEq, Repr

/-- `Communicate` from `aurora.go`, with the serial stream made explicit:
`received` is the byte stream the 8-byte read consumes (6 payload bytes
then a little-endian uint16 CRC). The result pairs the 10 transmitted
bytes with the decoded outcome: CRC mismatch yields `ErrCRCFailure`;
`GetPartNumber` and `GetSerialNumber` return the whole 6-byte payload;
otherwise a non-zero payload byte 0 yields a transmission state error,
`GetState` returns payload[1:] and every other command payload[2:]. -/
def Communicate (address command : Nat) (args : List Nat) (received : List Nat) :
    List Nat × Except CommError (List Nat) :=
  let payload := buildPayload address command args
  let sent := payload ++ uint16LE (calculateCRC payload)
  let inPayload := received.take 6
  let inCRC := received.getD 6 0 + 256 * received.getD 7 0
  let result : Except CommError (List Nat) :=
    if calculateCRC inPayload ≠ inCRC then Except.error CommError.crcFailure
    else if command = Command.GetPartNumber ∨ command = Command.GetSerialNumber then
      Except.ok inPayload
    else if inPayload.getD 0 0 ≠ 0 then
      Except.error (CommError.transmissionState (TransmissionStateString (inPayload.getD 0 0)))
    else if command = Command.GetState then Except.ok (inPayload.drop 1)
    else Except.ok (inPayload.drop 2)
  (sent, result)

/-- `InverterEpochOffset` from the constant table: seconds between the Unix
epoch and the Aurora firmware epoch. -/
def InverterEpochOffset : Nat := 946706400

/-- `binary.BigEndian.Uint32`: the first four bytes of the slice combined
big-endian. -/
def bigEndianUint32 (b : List Nat) : Nat :=
  b.getD 0 0 <<< 24 ||| b.getD 1 0 <<< 16 ||| b.getD 2 0 <<< 8 ||| b.getD 3 0

/-- `GetTime` from `aurora.go`: one `Communicate` with command `GetTime`
and no arguments, then `InverterEpochOffset + binary.BigEndian.Uint32(result)`.
In Go that addition is carried out in uint32, so it wraps modulo 2^32
before being widened to int64 for `time.Unix`. -/
def Inverter.GetTime (address : Nat) (received : List Nat) : Except CommError Nat :=
  match (Communicate address Command.GetTime [] received).2 with
  | Except.error err => Except.error err
  | Except.ok result => Except.ok ((InverterEpochOffset + bigEndianUint32 result) % 4294967296)

/-- `GetCumulatedEnergy` from `aurora.go`: one `Communicate` with command
`GetCumulatedEnergy` and the period selector as single argument, then the
result decoded as a big-endian uint32. -/
def Inverter.GetCumulatedEnergy (address period : Nat) (received : List Nat) :
    Except CommError Nat :=
  match (Communicate address Command.GetCumulatedEnergy [period] received).2 with
  | Except.error err => Except.error err
  | Except.ok result => Except.ok (bigEndianUint32 result)

theorem crcByteLoop_eq_bits (n : Nat) : ∀ crc data : Nat,
    crcByteLoop n crc data
      = ((List.range n).map fun k => (data >>> k) &&& 1).foldl crcSpecBit crc := by
  induction n with
  | zero => intro crc data; rfl
  | succ n ih =>
    intro crc data
    rw [List.range_succ_eq_map, List.map_cons, List.map_map, List.foldl_cons]
    rw [show crcByteLoop (n + 1) crc data
        = crcByteLoop n (crcBitStep crc data) (data >>> 1) from rfl]
    rw [ih (crcBitStep crc data) (data >>> 1)]
    congr 1
    apply List.map_congr_left
    intro k _
    simp only [Function.comp_apply, Nat.succ_eq_add_one]
    rw [show k + 1 = 1 + k from Nat.add_comm k 1, Nat.shiftRight_add]

theorem calculateCRC_eq_crc16Spec (input : List Nat) :
    calculateCRC input = crc16Spec input := by
  have hf : (fun crc chr => crcByteLoop 8 crc chr)
      = fun acc chr => (byteBitsLSBFirst chr).foldl crcSpecBit acc := by
    funext crc chr
    rw [crcByteLoop_eq_bits]
    rfl
  unfold calculateCRC crc16Spec
  rw [hf]

/-- C1: for every byte sequence `calculateCRC` follows the specified
algorithm (accumulator 0xFFFF, bits processed least significant first,
conditional shift-and-XOR with 0x8408, final bitwise NOT), and it returns
15784 on eight 0x20 bytes, 60178 on [2,56,32,32,32,32,32,32] and 53051 on
[2,56,1,2,3,4,5,6]. -/
theorem calculateCRC_matches_spec :
    (∀ input : List Nat, calculateCRC input = crc16Spec input)
    ∧ calculateCRC (List.replicate 8 32) = 15784
    ∧ calculateCRC [2, 56, 32, 32, 32, 32, 32, 32] = 60178
    ∧ calculateCRC [2, 56, 1, 2, 3, 4, 5, 6] = 53051 :=
  ⟨calculateCRC_eq_crc16Spec, by decide, by decide, by decide⟩

theorem buildPayload_eq (address command : Nat) (args : List Nat) :
    buildPayload address command args
      = [address, command] ++ args.take 6
        ++ (if args.length < 6 then 0 :: List.replicate (5 - args.length) 32 else []) := by
  rcases args with _ | ⟨a, _ | ⟨b, _ | ⟨c, _ | ⟨d, _ | ⟨e, _ | ⟨f, rest⟩⟩⟩⟩⟩⟩
  · rfl
  · rfl
  · rfl
  · rfl
  · rfl
  · rfl
  · cases rest <;> simp [buildPayload, setArgs]

theorem buildPayload_length (address command : Nat) (args : List Nat) :
    (buildPayload address command args).length = 8 := by
  rw [buildPayload_eq]
  by_cases h : args.length < 6 <;>
    simp [h, List.length_take, List.length_replicate] <;> omega

theorem communicate_sent (address command : Nat) (args received : List Nat) :
    (Communicate address command args received).1
      = buildPayload address command args
        ++ uint16LE (calculateCRC (buildPayload address command args)) := rfl

theorem communicate_sent_take (address command : Nat) (args received : List Nat) :
    (Communicate address command args received).1.take 8 = buildPayload address command args := by
  rw [communicate_sent,
    show (8 : Nat) = (buildPayload address command args).length from
      (buildPayload_length address command args).symm,
    List.take_left]

/-- C2: the outbound payload is [address, command, argument bytes]; only the
first 6 arguments are used, every unused argument slot holds 0x20, and when
fewer than 6 arguments are supplied the byte immediately following the last
supplied argument is 0 (with 3 arguments: argument bytes at positions 2 to
4, position 5 is 0, positions 6 and 7 are 0x20). -/
theorem communicate_payload_layout (address command : Nat) (args received : List Nat) :
    (Communicate address command args received).1.take 8
      = [address, command] ++ args.take 6
        ++ (if args.length < 6 then 0 :: List.replicate (5 - args.length) 32 else []) := by
  rw [communicate_sent_take, buildPayload_eq]

/-- C10: with zero arguments the explicit zero terminator lands in the first
argument slot, so the transmitted payload is exactly
[address, command, 0x00, 0x20, 0x20, 0x20, 0x20, 0x20]; on the
TestCommCheck frame (address 2, command GetVersion) the complete
transmitted frame is [2, 58, 0, 32, 32, 32, 32, 32, 201, 89]. -/
theorem communicate_zero_args_payload (address command : Nat) (received : List Nat) :
    (Communicate address command [] received).1.take 8
      = [address, command, 0, 32, 32, 32, 32, 32]
    ∧ (Communicate 2 Command.GetVersion [] received).1
      = [2, 58, 0, 32, 32, 32, 32, 32, 201, 89] :=
  ⟨rfl, rfl⟩

/-- C3: whenever the received little-endian CRC differs from the CRC of the
6 received payload bytes, Communicate fails with the sentinel
ErrCRCFailure, for every command and regardless of payload content, and
returns no payload bytes. -/
theorem communicate_crc_mismatch (address command : Nat) (args received : List Nat)
    (h : calculateCRC (received.take 6) ≠ received.getD 6 0 + 256 * received.getD 7 0) :
    (Communicate address command args received).2 = Except.error CommError.crcFailure := by
  simp only [Communicate, if_pos h]

/-- Witness for C3 at the frame the repository test makeCRCError builds:
payload [0,2,3,4,5,6] with its CRC deliberately off by one. -/
theorem communicate_crc_mismatch_witness :
    (Communicate 0 78 [3] [0, 2, 3, 4, 5, 6, 38, 188]).2
      = Except.error CommError.crcFailure :=
  communicate_crc_mismatch 0 78 [3] [0, 2, 3, 4, 5, 6, 38, 188] (by decide)

theorem communicate_result_eq (address command : Nat) (args received : List Nat) :
    (Communicate address command args received).2
      = if calculateCRC (received.take 6) ≠ received.getD 6 0 + 256 * received.getD 7 0 then
          Except.error CommError.crcFailure
        else if command = Command.GetPartNumber ∨ command = Command.GetSerialNumber then
          Except.ok (received.take 6)
        else if (received.take 6).getD 0 0 ≠ 0 then
          Except.error
            (CommError.transmissionState (TransmissionStateString ((received.take 6).getD 0 0)))
        else if command = Command.GetState then Except.ok ((received.take 6).drop 1)
        else Except.ok ((received.take 6).drop 2) := rfl

theorem communicate_reads_eight (address command : Nat) (args received : List Nat) :
    Communicate address command args received
      = Communicate address command args (received.take 8) := by
  have h6 : (received.take 8).take 6 = received.take 6 := by
    rw [List.take_take]
    norm_num
  have hg6 : (received.take 8).getD 6 0 = received.getD 6 0 := by
    simp [List.getD_eq_getElem?_getD, List.getElem?_take]
  have hg7 : (received.take 8).getD 7 0 = received.getD 7 0 := by
    simp [List.getD_eq_getElem?_getD, List.getElem?_take]
  simp only [Communicate, h6, hg6, hg7]

theorem communicate_crcFailure_iff (address command : Nat) (args received : List Nat) :
    ((Communicate address command args received).2 = Except.error CommError.crcFailure
      ↔ calculateCRC (received.take 6) ≠ received.getD 6 0 + 256 * received.getD 7 0) := by
  rw [communicate_result_eq]
  by_cases h : calculateCRC (received.take 6) = received.getD 6 0 + 256 * received.getD 7 0
  · rw [if_neg (by simp [h])]
    simp only [h, ne_eq, not_true_eq_false, iff_false]
    split_ifs <;> simp
  · rw [if_pos h]
    exact iff_of_true rfl h

/-- C7: every exchange transmits exactly 10 bytes, the 8-byte payload
followed by the CRC of those 8 payload bytes as a little-endian uint16, and
consumes exactly 8 received bytes, the 6-byte payload followed by a
little-endian uint16 CRC that is compared against the CRC of the 6 payload
bytes only. -/
theorem communicate_frame_sizes (address command : Nat) (args received : List Nat) :
    (Communicate address command args received).1.length = 10
    ∧ (Communicate address command args received).1
        = buildPayload address command args
          ++ uint16LE (calculateCRC (buildPayload address command args))
    ∧ (buildPayload address command args).length = 8
    ∧ (uint16LE (calculateCRC (buildPayload address command args))).length = 2
    ∧ Communicate address command args received
        = Communicate address command args (received.take 8)
    ∧ ((Communicate address command args received).2 = Except.error CommError.crcFailure
        ↔ calculateCRC (received.take 6) ≠ received.getD 6 0 + 256 * received.getD 7 0) := by
  refine ⟨?_, communicate_sent address command args received,
    buildPayload_length address command args, rfl,
    communicate_reads_eight address command args received,
    communicate_crcFailure_iff address command args received⟩
  rw [communicate_sent]
  simp [buildPayload_length, uint16LE]

theorem communicate_state_zero (address command : Nat) (args received : List Nat)
    (h1 : command ≠ Command.GetPartNumber) (h2 : command ≠ Command.GetSerialNumber)
    (hcrc : calculateCRC (received.take 6) = received.getD 6 0 + 256 * received.getD 7 0)
    (h0 : (received.take 6).getD 0 0 = 0) :
    (Communicate address command args received).2
      = if command = Command.GetState then Except.ok ((received.take 6).drop 1)
        else Except.ok ((received.take 6).drop 2) := by
  rw [communicate_result_eq, if_neg (by simp [hcrc]), if_neg (by simp [h1, h2]),
    if_neg (by exact fun hn => hn h0)]

/-- C6: for a command other than GetPartNumber and GetSerialNumber, with a
valid CRC and payload byte 0 equal to zero, Communicate returns payload
bytes 1 through 5 (5 bytes) for GetState and payload bytes 2 through 5
(4 bytes) for every other command. -/
theorem communicate_offsets (address command : Nat) (args received : List Nat)
    (h1 : command ≠ Command.GetPartNumber) (h2 : command ≠ Command.GetSerialNumber)
    (hlen : received.length = 8)
    (hcrc : calculateCRC (received.take 6) = received.getD 6 0 + 256 * received.getD 7 0)
    (h0 : (received.take 6).getD 0 0 = 0) :
    (command = Command.GetState →
      (Communicate address command args received).2 = Except.ok ((received.take 6).drop 1)
      ∧ ((received.take 6).drop 1).length = 5)
    ∧ (command ≠ Command.GetState →
      (Communicate address command args received).2 = Except.ok ((received.take 6).drop 2)
      ∧ ((received.take 6).drop 2).length = 4) := by
  have h := communicate_state_zero address command args received h1 h2 hcrc h0
  refine ⟨fun hs => ⟨by rw [h, if_pos hs], ?_⟩, fun hs => ⟨by rw [h, if_neg hs], ?_⟩⟩ <;>
    simp [List.length_drop, List.length_take, hlen]

/-- Witness for C6 at the TestState response frame [0,6,2,7,2,0] with its
CRC: GetState yields the 5 bytes after byte 0, GetCumulatedEnergy the 4
bytes after byte 1. -/
theorem communicate_offsets_witness :
    (Communicate 2 Command.GetState [] [0, 6, 2, 7, 2, 0, 212, 74]).2
      = Except.ok [6, 2, 7, 2, 0]
    ∧ (Communicate 2 Command.GetCumulatedEnergy [0] [0, 6, 2, 7, 2, 0, 212, 74]).2
      = Except.ok [2, 7, 2, 0] := by
  constructor
  · have h := communicate_offsets 2 Command.GetState [] [0, 6, 2, 7, 2, 0, 212, 74]
      (by decide) (by decide) (by decide) (by decide) (by decide)
    exact ((h.1 rfl).1).trans (by rfl)
  · have h := communicate_offsets 2 Command.GetCumulatedEnergy [0] [0, 6, 2, 7, 2, 0, 212, 74]
      (by decide) (by decide) (by decide) (by decide) (by decide)
    exact ((h.2 (by decide)).1).trans (by rfl)

/-- C5: for GetPartNumber and GetSerialNumber a frame with a valid CRC
always succeeds with the full 6-byte payload, with no transmission state
interpretation and no offset, even when payload byte 0 is non-zero. -/
theorem communicate_ascii_passthrough (address command : Nat) (args received : List Nat)
    (hcmd : command = Command.GetPartNumber ∨ command = Command.GetSerialNumber)
    (hcrc : calculateCRC (received.take 6) = received.getD 6 0 + 256 * received.getD 7 0) :
    (Communicate address command args received).2 = Except.ok (received.take 6) := by
  rw [communicate_result_eq, if_neg (by simp [hcrc]), if_pos hcmd]

/-- Witness for C5 at the TestSerialNumber response frame: the ASCII
payload "123456" starts with the non-zero byte 49 and is still returned
whole. -/
theorem communicate_ascii_passthrough_witness :
    (Communicate 2 Command.GetSerialNumber [] [49, 50, 51, 52, 53, 54, 114, 230]).2
      = Except.ok [49, 50, 51, 52, 53, 54] := by
  have h := communicate_ascii_passthrough 2 Command.GetSerialNumber []
    [49, 50, 51, 52, 53, 54, 114, 230] (Or.inr rfl) (by decide)
  exact h.trans (by rfl)

/-- C4 (amended): for a command other than GetPartNumber and
GetSerialNumber, with a valid CRC and a non-zero payload byte 0,
Communicate fails with an error whose message is the human-readable label
of that transmission state code (for the EEProm code, which is 55 in this
code base, the label is "EEProm not accessible"), and a non-zero code
absent from the table renders as "Unknown TransmissionState(N)" with N in
decimal; no payload bytes are returned. -/
theorem communicate_transmission_state_error :
    (∀ (address command : Nat) (args received : List Nat),
      command ≠ Command.GetPartNumber → command ≠ Command.GetSerialNumber →
      calculateCRC (received.take 6) = received.getD 6 0 + 256 * received.getD 7 0 →
      (received.take 6).getD 0 0 ≠ 0 →
      (Communicate address command args received).2
        = Except.error
            (CommError.transmissionState (TransmissionStateString ((received.take 6).getD 0 0))))
    ∧ TSEEpromNotAccessible = 55
    ∧ TransmissionStateString TSEEpromNotAccessible = "EEProm not accessible"
    ∧ (∀ n : Nat, n ≠ 0 → n ∉ [52, 53, 54, 55, 56, 57, 58] →
      TransmissionStateString n = "Unknown TransmissionState(" ++ toString n ++ ")") := by
  refine ⟨?_, rfl, rfl, ?_⟩
  · intro address command args received h1 h2 hcrc h0
    rw [communicate_result_eq, if_neg (by simp [hcrc]), if_neg (by simp [h1, h2]), if_pos h0]
  · intro n h0 hmem
    simp only [List.mem_cons, List.not_mem_nil, or_false, not_or] at hmem
    obtain ⟨h52, h53, h54, h55, h56, h57, h58⟩ := hmem
    simp [TransmissionStateString, transmissionStates, h0, h52, h53, h54, h55, h56, h57, h58]

/-- Witness for C4: a valid-CRC frame whose payload byte 0 is 55 makes a
GetState exchange fail with the message "EEProm not accessible", and code
99 renders as "Unknown TransmissionState(99)". -/
theorem communicate_transmission_state_error_witness :
    (Communicate 2 Command.GetState [] [55, 2, 3, 4, 5, 6, 36, 103]).2
      = Except.error (CommError.transmissionState "EEProm not accessible")
    ∧ TransmissionStateString 99 = "Unknown TransmissionState(99)" := by
  constructor
  · have h := communicate_transmission_state_error.1 2 Command.GetState []
      [55, 2, 3, 4, 5, 6, 36, 103] (by decide) (by decide) (by decide) (by decide)
    exact h.trans (by rfl)
  · exact communicate_transmission_state_error.2.2.2 99 (by decide) (by decide)

/-- C4 counterexample: in this code base 54 is TSValueOutOfRange, not the
EEProm code (the Go iota block starts the band at 52, so
TSEEpromNotAccessible is 55); a valid-CRC frame whose payload byte 0 is 54
fails with the message "Value out of range", not "EEProm not accessible". -/
theorem transmission_state_54_counterexample :
    TransmissionStateString 54 ≠ "EEProm not accessible"
    ∧ TSValueOutOfRange = 54
    ∧ (Communicate 2 Command.GetState [] [54, 2, 3, 4, 5, 6, 15, 99]).2
      = Except.error (CommError.transmissionState "Value out of range") :=
  ⟨by decide, rfl, rfl⟩

/-- C8 (amended): on a successful exchange GetTime returns the Unix second
(946706400 + the big-endian uint32 of the 4 returned payload bytes) where
the addition is carried out in uint32 and therefore wraps modulo 2^32; in
particular device time 0x1FC415FF, for which the sum does not wrap, decodes
to Unix second 946706400 + 0x1FC415FF. -/
theorem getTime_epoch_decode :
    (∀ (address : Nat) (received : List Nat),
      calculateCRC (received.take 6) = received.getD 6 0 + 256 * received.getD 7 0 →
      (received.take 6).getD 0 0 = 0 →
      Inverter.GetTime address received
        = Except.ok
            ((InverterEpochOffset + bigEndianUint32 ((received.take 6).drop 2)) % 4294967296))
    ∧ InverterEpochOffset = 946706400
    ∧ bigEndianUint32 [0x1f, 0xc4, 0x15, 0xff] = 0x1FC415FF
    ∧ (946706400 + 0x1FC415FF) % 4294967296 = 946706400 + 0x1FC415FF := by
  refine ⟨?_, rfl, by decide, by decide⟩
  intro address received hcrc h0
  unfold Inverter.GetTime
  rw [communicate_state_zero address Command.GetTime [] received (by decide) (by decide)
    hcrc h0, if_neg (by decide)]

/-- Witness for C8 at the TestGetTime response frame
[0, 6, 0x1f, 0xc4, 0x15, 0xff]: the decoded Unix second is 1479650783,
which is 946706400 + 0x1FC415FF. -/
theorem getTime_epoch_decode_witness :
    Inverter.GetTime 2 [0, 6, 0x1f, 0xc4, 0x15, 0xff, 229, 48] = Except.ok 1479650783 := by
  have h := getTime_epoch_decode.1 2 [0, 6, 0x1f, 0xc4, 0x15, 0xff, 229, 48]
    (by decide) (by decide)
  exact h.trans (by rfl)

/-- C8 counterexample: the Go addition InverterEpochOffset + uint32 is
itself a uint32 addition, so at device time 0xFFFFFFFF the code returns
Unix second (946706400 + 4294967295) mod 2^32 = 946706399 instead of
946706400 + 4294967295 as the claim states. -/
theorem getTime_overflow_counterexample :
    Inverter.GetTime 2 [0, 6, 255, 255, 255, 255, 142, 63] = Except.ok 946706399
    ∧ (946706399 : Nat) ≠ InverterEpochOffset + bigEndianUint32 [255, 255, 255, 255] :=
  ⟨rfl, by decide⟩

/-- C9: GetCumulatedEnergy decodes its 4 returned payload bytes as a
big-endian uint32 (bytes [0x00, 0x00, 0x30, 0x39] decode to 12345), while
the CRC appended to the transmitted frame is encoded little-endian, low
byte first. -/
theorem cumulatedEnergy_big_endian :
    (∀ (address period : Nat) (received : List Nat),
      calculateCRC (received.take 6) = received.getD 6 0 + 256 * received.getD 7 0 →
      (received.take 6).getD 0 0 = 0 →
      Inverter.GetCumulatedEnergy address period received
        = Except.ok (bigEndianUint32 ((received.take 6).drop 2)))
    ∧ bigEndianUint32 [0, 0, 0x30, 0x39] = 12345
    ∧ (∀ (address period : Nat) (received : List Nat),
      (Communicate address Command.GetCumulatedEnergy [period] received).1.drop 8
        = [calculateCRC (buildPayload address Command.GetCumulatedEnergy [period]) % 256,
           calculateCRC (buildPayload address Command.GetCumulatedEnergy [period]) / 256 % 256]) := by
  refine ⟨?_, by decide, ?_⟩
  · intro address period received hcrc h0
    unfold Inverter.GetCumulatedEnergy
    rw [communicate_state_zero address Command.GetCumulatedEnergy [period] received
      (by decide) (by decide) hcrc h0, if_neg (by decide)]
  · intro address period received
    rw [communicate_sent,
      show (8 : Nat) = (buildPayload address Command.GetCumulatedEnergy [period]).length from
        (buildPayload_length _ _ _).symm,
      List.drop_left]
    rfl

/-- Witness for C9 at the TestDailyEnergy response frame
[0, 6, 0, 0, 0x30, 0x39]: the decoded energy is 12345. -/
theorem cumulatedEnergy_big_endian_witness :
    Inverter.GetCumulatedEnergy 2 0 [0, 6, 0, 0, 0x30, 0x39, 247, 214] = Except.ok 12345 := by
  have h := cumulatedEnergy_big_endian.1 2 0 [0, 6, 0, 0, 0x30, 0x39, 247, 214]
    (by decide) (by decide)
  exact h.trans (by rfl)
